import Mathlib

/-!
# Verification of botik.py against its specification

A shallow embedding, in Lean 4, of the three components of `src/botik.py`:

* `extract_short_ids` (lines 26-28): regex extraction of YouTube Shorts
  video IDs from free-form text;
* `fetch_short_data` (lines 30-58): normalisation of one YouTube Data API
  response into a per-video success/failure record, with the `try/except`
  failure boundary modelled by the `Except` monad;
* the aggregation block of `process_shorts` (lines 78-95): partition into
  processed/failed/zero-view records, totals, floor-divided averages, the
  stable top-5 ranking, and the Markdown rendering of the top-5 lines.

Machine integers are modelled as `Int` (Python's `int` is unbounded), and
`//` as `Int.fdiv` (Python's floor division).
-/

namespace Botik

/-! ## ID extraction (`extract_short_ids`, src/botik.py lines 26-28)

The pattern is
  `(?:https?://)?(?:www\.)?youtube\.com/shorts/([a-zA-Z0-9_-]{11})`
and the function is
  `list({id for id in re.findall(pattern, text) if len(id) == 11})[:MAX_LINKS]`.

The matcher below is the pattern specialised: at a given start position the
engine tries the optional literal prefixes greedily and then needs the fixed
literal `youtube.com/shorts/` followed by exactly 11 ID-class characters
(with no boundary required after the 11th).  Because everything after each
optional group is a literal that can never match the text the group itself
would have consumed, the greedy try-with-then-without backtracking of the
optional groups is equivalent to the committed strip performed here.
`re.findall` scans left to right, resuming after each match; matches consume
at least the 19 characters of `youtube.com/shorts/`, so each scan step
strictly shrinks the remaining text.

Python's set-comprehension iteration order is an implementation detail (the
spec itself records it as unspecified); it is modelled by `List.dedup`.
Every property proved below about the deduplicated list is order-insensitive.
-/

def MAX_LINKS : Nat := 100

/-- The regex character class `[a-zA-Z0-9_-]` (ASCII, exactly as in Python). -/
def isIdChar (c : Char) : Bool :=
  c.isAlpha || c.isDigit || c == '_' || c == '-'

/-- Strip an exact literal from the front of the text: `some rest` on
success, `none` when the text does not start with the literal. -/
def dropLit : List Char → List Char → Option (List Char)
  | [], s => some s
  | _ :: _, [] => none
  | p :: ps, c :: cs => if c = p then dropLit ps cs else none

/-- Strip an optional literal (a `(?:lit)?` group whose follow set is
disjoint from the literal): the text unchanged when the literal is absent. -/
def dropOpt (lit s : List Char) : List Char :=
  match dropLit lit s with
  | some r => r
  | none => s

/-- The optional scheme group `(?:https?://)?`: greedy `s?` tries `https://`
before `http://`, then the whole group is skipped. -/
def dropScheme (s : List Char) : List Char :=
  match dropLit ("https://".toList) s with
  | some r => r
  | none => dropOpt ("http://".toList) s

def shortsLit : List Char := "youtube.com/shorts/".toList

/-- One attempted match of the whole pattern at the current position:
`some (captured 11 characters, text after the match)` or `none`. -/
def matchAt (s : List Char) : Option (List Char × List Char) :=
  match dropLit shortsLit (dropOpt ("www.".toList) (dropScheme s)) with
  | none => none
  | some r =>
    if (r.take 11).length = 11 ∧ (r.take 11).all isIdChar then
      some (r.take 11, r.drop 11)
    else none

/-- The `re.findall` scan loop.  The fuel argument is an upper bound on the
number of scan steps; `re_findall` passes the length of the text, which is
always sufficient because every step discards at least one character
(`scanShorts_congr` below shows the result does not depend on the surplus). -/
def scanShorts : Nat → List Char → List String
  | _, [] => []
  | 0, _ :: _ => []
  | fuel + 1, c :: cs =>
    match matchAt (c :: cs) with
    | some (idc, rest) => String.mk idc :: scanShorts fuel rest
    | none => scanShorts fuel cs

def re_findall (s : List Char) : List String := scanShorts s.length s

/-- `extract_short_ids` (src/botik.py line 26-28). -/
def extract_short_ids (text : String) : List String :=
  (((re_findall text.toList).filter (fun id => id.length = 11)).dedup).take MAX_LINKS

/-- "The text contains no shorts URL": the pattern matches at no position. -/
def NoShortsUrl (t : String) : Prop :=
  ∀ i < t.data.length, matchAt (t.data.drop i) = none

theorem dropLit_length : ∀ (lit s r : List Char), dropLit lit s = some r →
    r.length + lit.length = s.length
  | [], s, r, h => by
    simp only [dropLit, Option.some.injEq] at h
    simp [h]
  | _ :: _, [], _, h => by simp [dropLit] at h
  | p :: ps, c :: cs, r, h => by
    by_cases hc : c = p
    · simp only [dropLit, if_pos hc] at h
      have := dropLit_length ps cs r h
      simp only [List.length_cons]
      omega
    · simp [dropLit, hc] at h

theorem dropOpt_length_le (lit s : List Char) : (dropOpt lit s).length ≤ s.length := by
  unfold dropOpt
  split
  · rename_i r h
    have := dropLit_length lit s r h
    omega
  · exact Nat.le_refl _

theorem dropScheme_length_le (s : List Char) : (dropScheme s).length ≤ s.length := by
  unfold dropScheme
  split
  · rename_i r h
    have := dropLit_length _ s r h
    omega
  · exact dropOpt_length_le _ s

theorem matchAt_some {s idc rest : List Char} (h : matchAt s = some (idc, rest)) :
    idc.length = 11 ∧ idc.all isIdChar = true ∧ rest.length < s.length := by
  unfold matchAt at h
  split at h
  · exact absurd h (by simp)
  · rename_i r hr
    split at h
    · rename_i hcond
      have h2 := Option.some.inj h
      have hidc : idc = r.take 11 := congrArg Prod.fst h2 |>.symm
      have hrest : rest = r.drop 11 := congrArg Prod.snd h2 |>.symm
      have hlen := dropLit_length shortsLit _ r hr
      have hs2 : (dropOpt ("www.".toList) (dropScheme s)).length ≤ s.length :=
        Nat.le_trans (dropOpt_length_le _ _) (dropScheme_length_le s)
      have hlit : shortsLit.length = 19 := rfl
      refine ⟨hidc ▸ hcond.1, hidc ▸ hcond.2, ?_⟩
      have : rest.length = r.length - 11 := by rw [hrest, List.length_drop]
      omega
    · exact absurd h (by simp)

theorem matchAt_nil : matchAt [] = none := rfl

theorem scanShorts_nil (fuel : Nat) : scanShorts fuel [] = [] := by
  cases fuel <;> rfl

/-- The scan is insensitive to surplus fuel: any two fuels at least the
length of the text give the same result, so `re_findall`'s choice of fuel
(the length of the text) is exact. -/
theorem scanShorts_congr : ∀ (fuel : Nat), ∀ (fuel2 : Nat) (s : List Char),
    s.length ≤ fuel → s.length ≤ fuel2 → scanShorts fuel s = scanShorts fuel2 s := by
  intro fuel
  induction fuel using Nat.strong_induction_on with
  | _ fuel ih =>
    intro fuel2 s h1 h2
    cases s with
    | nil => rw [scanShorts_nil, scanShorts_nil]
    | cons c cs =>
      simp only [List.length_cons] at h1 h2
      obtain ⟨f, rfl⟩ : ∃ f, fuel = f + 1 := ⟨fuel - 1, by omega⟩
      obtain ⟨f2, rfl⟩ : ∃ f2, fuel2 = f2 + 1 := ⟨fuel2 - 1, by omega⟩
      simp only [scanShorts]
      split
      · rename_i idc rest hm
        have hlt := (matchAt_some hm).2.2
        simp only [List.length_cons] at hlt
        rw [ih f (by omega) f2 rest (by omega) (by omega)]
      · rw [ih f (by omega) f2 cs (by omega) (by omega)]

theorem scanShorts_mem : ∀ (fuel : Nat) (s : List Char), ∀ id ∈ scanShorts fuel s,
    id.length = 11 ∧ ∀ c ∈ id.data, isIdChar c = true := by
  intro fuel
  induction fuel with
  | zero =>
    intro s id hid
    cases s <;> simp [scanShorts] at hid
  | succ f ih =>
    intro s id hid
    match s with
    | [] => simp [scanShorts] at hid
    | c :: cs =>
      simp only [scanShorts] at hid
      split at hid
      · rename_i idc rest hm
        rcases List.mem_cons.mp hid with hhead | htail
        · obtain ⟨hlen, hall, -⟩ := matchAt_some hm
          subst hhead
          refine ⟨hlen, ?_⟩
          intro ch hch
          exact List.all_eq_true.mp hall ch hch
        · exact ih rest id htail
      · exact ih cs id hid

theorem scanShorts_empty : ∀ (fuel : Nat) (s : List Char),
    (∀ i, matchAt (s.drop i) = none) → scanShorts fuel s = [] := by
  intro fuel
  induction fuel with
  | zero => intro s _; cases s <;> rfl
  | succ f ih =>
    intro s h
    match s with
    | [] => rfl
    | c :: cs =>
      have h0 : matchAt (c :: cs) = none := by
        have := h 0
        simpa using this
      simp only [scanShorts, h0]
      exact ih cs (fun i => by simpa [List.drop_succ_cons] using h (i + 1))

/-- C1: for every input text, `extract_short_ids` returns pairwise-distinct
IDs, each exactly 11 characters drawn from letters, digits, `-` and `_`, and
at most `MAX_LINKS` (100) of them; when the text contains no shorts URL the
result is empty.  (The function is a total Lean function, so it can raise
nothing on any input.) -/
theorem extract_short_ids_spec (t : String) :
    (extract_short_ids t).Nodup
    ∧ (∀ id ∈ extract_short_ids t, id.length = 11 ∧ ∀ c ∈ id.data, isIdChar c = true)
    ∧ (extract_short_ids t).length ≤ MAX_LINKS
    ∧ (NoShortsUrl t → extract_short_ids t = []) := by
  refine ⟨?_, ?_, ?_, ?_⟩
  · unfold extract_short_ids
    exact List.Nodup.sublist (List.take_sublist _ _) (List.nodup_dedup _)
  · intro id hid
    have h1 : id ∈ ((re_findall t.toList).filter (fun id => id.length = 11)).dedup :=
      List.Sublist.subset (List.take_sublist _ _) hid
    have h2 : id ∈ (re_findall t.toList).filter (fun id => id.length = 11) :=
      List.mem_dedup.mp h1
    have h3 : id ∈ re_findall t.toList := List.mem_of_mem_filter h2
    exact scanShorts_mem _ _ id h3
  · unfold extract_short_ids
    rw [List.length_take]
    exact Nat.min_le_left _ _
  · intro hno
    have hall : ∀ i, matchAt (t.data.drop i) = none := by
      intro i
      by_cases hi : i < t.data.length
      · exact hno i hi
      · rw [List.drop_eq_nil_of_le (by omega)]
        exact matchAt_nil
    unfold extract_short_ids
    have : re_findall t.toList = [] := scanShorts_empty _ _ hall
    rw [this]
    rfl

/-- C10: the pattern has no boundary after the 11th ID character, so a
shorts URL whose ID segment is longer than 11 ID-class characters is
silently truncated to its first 11 characters rather than rejected:
`youtube.com/shorts/abcdefghijkl` (a 12-character segment) yields the ID
`abcdefghijk`. -/
theorem extract_short_ids_overlong_truncates :
    extract_short_ids "youtube.com/shorts/abcdefghijkl" = ["abcdefghijk"] := by
  decide

/-! ## Fetching (`fetch_short_data`, src/botik.py lines 30-58)

The function performs one HTTP GET, parses the body as JSON, and builds a
per-video record inside a `try` block whose `except Exception` clause turns
any raised error into `{"id": video_id, "success": False, "error": str(e)}`.

The outside world is modelled by the value the line
`data = response.json()` would produce:
* `Except.error msg` — the GET raised (connection error, the 10-second
  timeout, ...) or the body was not JSON (`response.json()` raised);
* `Except.ok data` — the parsed JSON body.

The `try` body is `fetchAttempt`, written in the `Except` monad: every
Python subexpression that can raise is modelled as an `Except`-valued
operation, in the source's evaluation order.  JSON numbers are modelled as
`Int` (the statistics fields of this API are decimal strings, and no claim
involves a float). -/

inductive Json where
  | null
  | bool (b : Bool)
  | num (n : Int)
  | str (s : String)
  | arr (elems : List Json)
  | obj (fields : List (String × Json))

/-- Python truthiness (`if not data["items"]`). -/
def Json.truthy : Json → Bool
  | .null => false
  | .bool b => b
  | .num n => n != 0
  | .str s => s != ""
  | .arr xs => !xs.isEmpty
  | .obj fs => !fs.isEmpty

/-- Python subscript with a string key, `d["k"]`: a `KeyError` when the key
is absent from a dict (`str(KeyError(k))` is the quoted key), a `TypeError`
on every non-dict value. -/
def Json.getKey : Json → String → Except String Json
  | .obj fields, k =>
    match fields.lookup k with
    | some v => .ok v
    | none => .error ("'" ++ k ++ "'")
  | _, _ => .error "TypeError: value is not subscriptable by a string"

/-- Python subscript with an integer, `d[0]`: list indexing (an `IndexError`
out of range), string indexing (a one-character string), a `TypeError` on
every other value. -/
def Json.getIdx : Json → Nat → Except String Json
  | .arr xs, i =>
    match xs.get? i with
    | some v => .ok v
    | none => .error "list index out of range"
  | .str s, i =>
    match s.data.get? i with
    | some c => .ok (.str (String.mk [c]))
    | none => .error "string index out of range"
  | _, _ => .error "TypeError: value is not subscriptable by an integer"

/-- Python `dict.get(k, default)`: never raises on a dict; an
`AttributeError` on every non-dict value (only dicts have `.get`). -/
def Json.dictGet : Json → String → Json → Except String Json
  | .obj fields, k, dflt => .ok ((fields.lookup k).getD dflt)
  | _, _, _ => .error "AttributeError: value has no attribute get"

/-- Python `value[:10]`: slicing keeps at most the first 10 items (code
points, for a string) and is a `TypeError` on anything unsubscriptable. -/
def pySlice10 : Json → Except String Json
  | .str s => .ok (.str (String.mk (s.data.take 10)))
  | .arr xs => .ok (.arr (xs.take 10))
  | _ => .error "TypeError: value is not subscriptable"

/-- The numeric value of a string of decimal digits. -/
def digitsVal (cs : List Char) : Nat :=
  cs.foldl (fun acc c => acc * 10 + (c.toNat - 48)) 0

/-- Python `int(s)` on a string: surrounding whitespace stripped, an
optional sign, then decimal digits; anything else is a `ValueError`.
(Underscore separators and non-ASCII digits, which CPython also accepts,
are left out: no value in this program's data can contain them.) -/
def pyIntOfString (s : String) : Except String Int :=
  match ((s.data.dropWhile Char.isWhitespace).reverse.dropWhile Char.isWhitespace).reverse with
  | '-' :: core =>
    if core ≠ [] ∧ core.all Char.isDigit then .ok (-(digitsVal core : Int))
    else .error ("invalid literal for int() with base 10: " ++ s)
  | '+' :: core =>
    if core ≠ [] ∧ core.all Char.isDigit then .ok ((digitsVal core : Int))
    else .error ("invalid literal for int() with base 10: " ++ s)
  | core =>
    if core ≠ [] ∧ core.all Char.isDigit then .ok ((digitsVal core : Int))
    else .error ("invalid literal for int() with base 10: " ++ s)

/-- Python `int(x)` as applied to a JSON value: numbers pass through, bools
are 0/1, strings are parsed, everything else is a `TypeError`. -/
def pyInt : Json → Except String Int
  | .num n => .ok n
  | .bool b => .ok (if b then 1 else 0)
  | .str s => pyIntOfString s
  | .null => .error "TypeError: int() argument must not be None"
  | .arr _ => .error "TypeError: int() argument must not be a list"
  | .obj _ => .error "TypeError: int() argument must not be a dict"

/-- The per-video record `fetch_short_data` returns (a Python dict in the
source).  A field that the source's dict does not carry on a given path is
`none`: a failure record carries no `title`/`date`/statistics keys, and a
success record carries no `error` key.  `title` and `date` keep the raw
JSON value the source would store (the API's value, or the sentinel
default); `views`/`likes`/`comments` are the results of `int(...)`. -/
structure VideoRecord where
  id : String
  success : Bool
  title : Option Json := none
  date : Option Json := none
  views : Option Int := none
  likes : Option Int := none
  comments : Option Int := none
  error : Option String := none

/-- The body of the `try` block (src/botik.py lines 38-55), in the source's
evaluation order.  `.error msg` is a raised exception reaching the
`except` clause; `.ok record` is a `return` from inside the `try`. -/
def fetchAttempt (video_id : String) (body : Except String Json) :
    Except String VideoRecord := do
  let data ← body
  let items ← data.getKey "items"
  if !items.truthy then
    return { id := video_id, success := false }
  let info ← items.getIdx 0
  let snippet ← info.getKey "snippet"
  let stats ← info.getKey "statistics"
  let title ← snippet.dictGet "title" (.str "Без названия")
  let rawDate ← snippet.dictGet "publishedAt" (.str "Дата неизвестна")
  let date ← pySlice10 rawDate
  let viewsJ ← stats.dictGet "viewCount" (.str "0")
  let views ← pyInt viewsJ
  let likesJ ← stats.dictGet "likeCount" (.str "0")
  let likes ← pyInt likesJ
  let commentsJ ← stats.dictGet "commentCount" (.str "0")
  let comments ← pyInt commentsJ
  return { id := video_id, success := true, title := some title, date := some date,
           views := some views, likes := some likes, comments := some comments }

/-- `fetch_short_data` (src/botik.py lines 30-58): the `try/except`
boundary.  A raised exception `e` becomes
`{"id": video_id, "success": False, "error": str(e)}`. -/
def fetch_short_data (video_id : String) (body : Except String Json) : VideoRecord :=
  match fetchAttempt video_id body with
  | .ok r => r
  | .error e => { id := video_id, success := false, error := some e }

/-- The shape of a successful API response whose `items` array holds one
video with the given `snippet` and `statistics` objects. -/
def apiBody (snip stats : List (String × Json)) : Json :=
  .obj [("items", .arr [.obj [("snippet", .obj snip), ("statistics", .obj stats)]])]

/-- C2: whenever any transport, parsing, or unexpected-shape error is raised
inside the `try` body (`fetchAttempt` ends in `.error e` — an HTTP failure,
a non-JSON body, a missing or ill-typed field, a non-numeric count string),
`fetch_short_data` returns exactly `{id, success: false, error: e}`.  The
exception never reaches the caller: `fetch_short_data` is a total function
into `VideoRecord`, so no input makes it propagate anything. -/
theorem fetch_error_absorbed (video_id : String) (body : Except String Json)
    (e : String) (h : fetchAttempt video_id body = .error e) :
    fetch_short_data video_id body =
      { id := video_id, success := false, error := some e } := by
  unfold fetch_short_data
  rw [h]

/-- C2 witness: a transport error (the GET raised) at a concrete input. -/
theorem fetch_error_absorbed_witness :
    fetch_short_data "dQw4w9WgXcQ" (.error "Read timed out. (read timeout=10)") =
      { id := "dQw4w9WgXcQ", success := false,
        error := some "Read timed out. (read timeout=10)" } :=
  fetch_error_absorbed "dQw4w9WgXcQ" (.error "Read timed out. (read timeout=10)")
    "Read timed out. (read timeout=10)" rfl

/-- C3 counterexample: when the `items` key is *absent* from the response,
`data["items"]` raises a `KeyError`, which the `except` clause turns into a
record that *does* carry an error field — not the bare
`{id, success: false}` the claim promises for an absent `items` array. -/
theorem fetch_absent_items_has_error_field :
    (fetch_short_data "dQw4w9WgXcQ"
        (.ok (.obj [("kind", .str "youtube#videoListResponse")]))).error
      = some "'items'" ∧
    (fetch_short_data "dQw4w9WgXcQ"
        (.ok (.obj [("kind", .str "youtube#videoListResponse")]))).error
      ≠ none := by
  exact ⟨rfl, by decide⟩

/-- C3 amended: when the response carries an `items` array that is present
but empty, `fetch_short_data` returns exactly `{id, success: false}` with no
error field (an absent `items` key instead raises a `KeyError`, absorbed
into an error record). -/
theorem fetch_empty_items_not_found (video_id : String)
    (fields : List (String × Json)) (h : fields.lookup "items" = some (.arr [])) :
    fetch_short_data video_id (.ok (.obj fields)) =
      { id := video_id, success := false } := by
  unfold fetch_short_data fetchAttempt
  simp [Json.getKey, h, Json.truthy, Except.instMonad, Except.bind, Except.pure]

/-- C3 amended, witness: the minimal not-found response. -/
theorem fetch_empty_items_not_found_witness :
    fetch_short_data "dQw4w9WgXcQ" (.ok (.obj [("items", .arr [])])) =
      { id := "dQw4w9WgXcQ", success := false } :=
  fetch_empty_items_not_found "dQw4w9WgXcQ" [("items", .arr [])] rfl

/-- C7 counterexample: the truncation `[:10]` on line 51 applies *after* the
defaulting, so a success response with no `publishedAt` field stores the
first 10 characters of the "Unknown date" sentinel (`"Дата неизвестна"`),
not the sentinel itself. -/
theorem fetch_missing_date_truncates_sentinel :
    (fetch_short_data "dQw4w9WgXcQ" (.ok (apiBody [] []))).date
      = some (.str "Дата неизв") ∧
    some (Json.str "Дата неизв") ≠ some (Json.str "Дата неизвестна") := by
  refine ⟨rfl, ?_⟩
  intro hc
  injection hc with hc2
  injection hc2 with hc3
  exact absurd hc3 (by decide)

/-- C7 amended: on every successful response — arbitrary snippet and
statistics objects, any mix of present and absent fields, provided only
that the path succeeds (the date value slices, each count value parses) —
the record stores `snippet.get("title", "Без названия")` as the title and
the sliced/parsed values of the other fields; per field, independently of
every other field's presence: a missing title becomes the "No title"
sentinel `"Без названия"`, a missing publish date becomes the first 10
characters of the "Unknown date" sentinel `"Дата неизвестна"` (the `[:10]`
truncation applies after the defaulting), a missing view/like/comment
count becomes 0, and a present publish date is truncated to its first 10
characters. -/
theorem fetch_success_defaults (video_id : String)
    (snip stats : List (String × Json)) (d : Json) (v l c : Int)
    (hd : pySlice10 ((snip.lookup "publishedAt").getD (.str "Дата неизвестна")) = .ok d)
    (hv : pyInt ((stats.lookup "viewCount").getD (.str "0")) = .ok v)
    (hl : pyInt ((stats.lookup "likeCount").getD (.str "0")) = .ok l)
    (hc : pyInt ((stats.lookup "commentCount").getD (.str "0")) = .ok c) :
    fetch_short_data video_id (.ok (apiBody snip stats)) =
      { id := video_id, success := true,
        title := some ((snip.lookup "title").getD (.str "Без названия")),
        date := some d, views := some v, likes := some l, comments := some c }
    ∧ (snip.lookup "title" = none →
        (snip.lookup "title").getD (.str "Без названия") = .str "Без названия")
    ∧ (snip.lookup "publishedAt" = none → d = .str "Дата неизв")
    ∧ (∀ s : String, snip.lookup "publishedAt" = some (.str s) →
        d = .str (String.mk (s.data.take 10)))
    ∧ (stats.lookup "viewCount" = none → v = 0)
    ∧ (stats.lookup "likeCount" = none → l = 0)
    ∧ (stats.lookup "commentCount" = none → c = 0) := by
  refine ⟨?_, ?_, ?_, ?_, ?_, ?_, ?_⟩
  · unfold fetch_short_data fetchAttempt apiBody
    simp [Json.getKey, Json.getIdx, Json.dictGet, Json.truthy, hd, hv, hl, hc,
      Except.instMonad, Except.bind, Except.pure, List.lookup]
  · intro h1
    rw [h1]
    rfl
  · intro h2
    rw [h2] at hd
    exact (Except.ok.inj hd).symm
  · intro s h2
    rw [h2] at hd
    exact (Except.ok.inj hd).symm
  · intro h3
    rw [h3] at hv
    exact (Except.ok.inj hv).symm
  · intro h4
    rw [h4] at hl
    exact (Except.ok.inj hl).symm
  · intro h5
    rw [h5] at hc
    exact (Except.ok.inj hc).symm

/-- C7 amended, witness: a mixed presence pattern — title and `viewCount`
present, `publishedAt`, `likeCount` and `commentCount` absent — so the
defaults of the absent fields are exercised next to present fields. -/
theorem fetch_success_defaults_witness :
    fetch_short_data "dQw4w9WgXcQ"
        (.ok (apiBody [("title", Json.str "Mixed")] [("viewCount", Json.str "123")])) =
      { id := "dQw4w9WgXcQ", success := true, title := some (.str "Mixed"),
        date := some (.str "Дата неизв"), views := some 123, likes := some 0,
        comments := some 0 } :=
  (fetch_success_defaults "dQw4w9WgXcQ" [("title", Json.str "Mixed")]
    [("viewCount", Json.str "123")] (Json.str "Дата неизв") 123 0 0
    rfl rfl rfl rfl).1

/-! ## Aggregation (`process_shorts`, src/botik.py lines 78-95)

The handler fetches one record per extracted ID and then aggregates:

```
processed = [r for r in results if r["success"]]
failed    = [r for r in results if not r["success"]]
zeros     = [r for r in processed if r["views"] == 0]
total_views    = sum(r["views"] for r in processed)      # likewise likes, comments
avg_views      = total_views // len(processed) if processed else 0
top5 = sorted(processed, key=lambda r: r["views"], reverse=True)[:5]
```

The aggregation reads `r["views"]`/`r["likes"]`/`r["comments"]` only on
records of `processed`; every such record comes from the fetcher's success
path, where the statistics fields are present, so the `Option.getD 0` below
is never reached on the records this program builds (a Python `KeyError`
cannot occur here). -/

def viewsOf (r : VideoRecord) : Int := r.views.getD 0

def likesOf (r : VideoRecord) : Int := r.likes.getD 0

def commentsOf (r : VideoRecord) : Int := r.comments.getD 0

/-- Line 79: `processed = [r for r in results if r["success"]]`. -/
def processedOf (results : List VideoRecord) : List VideoRecord :=
  results.filter (fun r => r.success)

/-- Line 80: `failed = [r for r in results if not r["success"]]`. -/
def failedOf (results : List VideoRecord) : List VideoRecord :=
  results.filter (fun r => !r.success)

/-- Line 81: `zeros = [r for r in processed if r["views"] == 0]`. -/
def zerosOf (results : List VideoRecord) : List VideoRecord :=
  (processedOf results).filter (fun r => viewsOf r == 0)

/-- Line 83: `total_views = sum(r["views"] for r in processed)`. -/
def total_views (results : List VideoRecord) : Int :=
  ((processedOf results).map viewsOf).sum

/-- Line 84. -/
def total_likes (results : List VideoRecord) : Int :=
  ((processedOf results).map likesOf).sum

/-- Line 85. -/
def total_comments (results : List VideoRecord) : Int :=
  ((processedOf results).map commentsOf).sum

/-- Line 87: `avg_views = total_views // len(processed) if processed else 0`.
Python's `//` is floor division (`Int.fdiv`); an empty list is falsy. -/
def avg_views (results : List VideoRecord) : Int :=
  if (processedOf results).isEmpty then 0
  else (total_views results).fdiv ((processedOf results).length : Int)

/-- Line 88. -/
def avg_likes (results : List VideoRecord) : Int :=
  if (processedOf results).isEmpty then 0
  else (total_likes results).fdiv ((processedOf results).length : Int)

/-- Line 89. -/
def avg_comments (results : List VideoRecord) : Int :=
  if (processedOf results).isEmpty then 0
  else (total_comments results).fdiv ((processedOf results).length : Int)

/-- The ordering `sorted(processed, key=lambda r: r["views"], reverse=True)`
sorts by: `a` may come before `b` iff `a`'s views are at least `b`'s. -/
def viewsGe (a b : VideoRecord) : Prop := viewsOf b ≤ viewsOf a

instance : DecidableRel viewsGe := fun a b => by unfold viewsGe; infer_instance

instance : IsTotal VideoRecord viewsGe := ⟨fun a b => le_total (viewsOf b) (viewsOf a)⟩

instance : IsTrans VideoRecord viewsGe := ⟨fun _ _ _ h1 h2 => le_trans h2 h1⟩

/-- Line 91: `top5 = sorted(processed, key=..., reverse=True)[:5]`.
Python's `sorted` is a stable sort and `reverse=True` preserves stability
(equal keys keep their original relative order), so its output is the
unique permutation that is descending on views and keeps the original
order among equal view counts; `List.insertionSort viewsGe` computes
exactly that permutation (`top5_spec` proves the characterising
properties rather than relying on the algorithm's identity). -/
def top5 (results : List VideoRecord) : List VideoRecord :=
  ((processedOf results).insertionSort viewsGe).take 5

/-- C5: each average is the floor division of the corresponding total by
the number of success records, and with zero success records (in
particular on the empty input) every total and every average is 0 — the
guard `if processed else 0` sidesteps the division by zero, and the Lean
functions are total, so no input can make the aggregation fail. -/
theorem averages_are_floor_divisions (results : List VideoRecord) :
    (avg_views results = if (processedOf results).length = 0 then 0
      else (total_views results).fdiv ((processedOf results).length : Int))
    ∧ (avg_likes results = if (processedOf results).length = 0 then 0
      else (total_likes results).fdiv ((processedOf results).length : Int))
    ∧ (avg_comments results = if (processedOf results).length = 0 then 0
      else (total_comments results).fdiv ((processedOf results).length : Int))
    ∧ ((processedOf results).length = 0 →
        total_views results = 0 ∧ total_likes results = 0 ∧ total_comments results = 0
        ∧ avg_views results = 0 ∧ avg_likes results = 0 ∧ avg_comments results = 0) := by
  by_cases h : processedOf results = []
  · simp [avg_views, avg_likes, avg_comments, total_views, total_likes, total_comments, h]
  · have hlen : (processedOf results).length ≠ 0 := by
      simpa [List.length_eq_zero] using h
    have hne : (processedOf results).isEmpty = false := by
      simpa [List.isEmpty_iff] using h
    refine ⟨?_, ?_, ?_, fun hc => absurd hc hlen⟩ <;>
      simp [avg_views, avg_likes, avg_comments, hne, hlen]

/-- The records of the spec's aggregation example: one success with 10
views, one success with 0 views, one failure. -/
def recTen : VideoRecord :=
  { id := "aaaaaaaaaaa", success := true, title := some (.str "first"),
    date := some (.str "2024-01-01"), views := some 10, likes := some 0,
    comments := some 0 }

def recZero : VideoRecord :=
  { id := "bbbbbbbbbbb", success := true, title := some (.str "second"),
    date := some (.str "2024-01-02"), views := some 0, likes := some 0,
    comments := some 0 }

def recFailed : VideoRecord := { id := "ccccccccccc", success := false }

def exampleRecords : List VideoRecord := [recTen, recZero, recFailed]

/-- C6: on `[{views:10, success:true}, {views:0, success:true},
{success:false}]` the aggregation yields processed=2, failed=1, zeros=1,
totalViews=10, avgViews=5; the zero-view success record is counted in
`zeros` and still belongs to `processed`, whose totals and averages it
enters (hence the average 5 = (10+0) // 2, not 10 // 1). -/
theorem aggregation_example_counts :
    (processedOf exampleRecords).length = 2
    ∧ (failedOf exampleRecords).length = 1
    ∧ (zerosOf exampleRecords).length = 1
    ∧ total_views exampleRecords = 10
    ∧ avg_views exampleRecords = 5
    ∧ recZero ∈ processedOf exampleRecords
    ∧ recZero ∈ zerosOf exampleRecords := by
  refine ⟨rfl, rfl, rfl, rfl, rfl, ?_, ?_⟩
  · show recZero ∈ [recTen, recZero]
    exact List.mem_cons_of_mem _ (List.mem_cons_self _ _)
  · show recZero ∈ [recZero]
    exact List.mem_cons_self _ _

/-- C8: the aggregated counts (processed, failed, zeros), the totals and
the averages are invariant under every permutation of the record list —
the aggregation is order-independent (`top5` alone depends on the input
order, through its tie-breaks). -/
theorem aggregation_perm_invariant (results results2 : List VideoRecord)
    (h : results.Perm results2) :
    (processedOf results).length = (processedOf results2).length
    ∧ (failedOf results).length = (failedOf results2).length
    ∧ (zerosOf results).length = (zerosOf results2).length
    ∧ total_views results = total_views results2
    ∧ total_likes results = total_likes results2
    ∧ total_comments results = total_comments results2
    ∧ avg_views results = avg_views results2
    ∧ avg_likes results = avg_likes results2
    ∧ avg_comments results = avg_comments results2 := by
  have hp : (processedOf results).Perm (processedOf results2) := h.filter _
  have hf : (failedOf results).Perm (failedOf results2) := h.filter _
  have hz : (zerosOf results).Perm (zerosOf results2) := hp.filter _
  have hlp := hp.length_eq
  have htv : total_views results = total_views results2 := (hp.map viewsOf).sum_eq
  have htl : total_likes results = total_likes results2 := (hp.map likesOf).sum_eq
  have htc : total_comments results = total_comments results2 :=
    (hp.map commentsOf).sum_eq
  have hemp : (processedOf results).isEmpty = (processedOf results2).isEmpty := by
    rw [Bool.eq_iff_iff, List.isEmpty_iff_length_eq_zero, List.isEmpty_iff_length_eq_zero, hlp]
  refine ⟨hlp, hf.length_eq, hz.length_eq, htv, htl, htc, ?_, ?_, ?_⟩
  · unfold avg_views; rw [htv, hlp, hemp]
  · unfold avg_likes; rw [htl, hlp, hemp]
  · unfold avg_comments; rw [htc, hlp, hemp]

/-- Inserting a record into a list by `orderedInsert viewsGe` walks past
exactly the records with strictly more views, so filtering any fixed view
count `v` out of the result either prepends the record (when its views are
`v`) or leaves the filtered list unchanged. -/
theorem filter_views_orderedInsert (v : Int) (a : VideoRecord) (l : List VideoRecord) :
    (l.orderedInsert viewsGe a).filter (fun r => viewsOf r == v) =
      if viewsOf a == v then a :: l.filter (fun r => viewsOf r == v)
      else l.filter (fun r => viewsOf r == v) := by
  rw [List.orderedInsert_eq_take_drop, List.filter_append, List.filter_cons]
  have hsplit := @List.takeWhile_append_dropWhile _ (fun b => decide ¬ viewsGe a b) l
  by_cases hv : (viewsOf a == v) = true
  · rw [if_pos hv, if_pos hv]
    have htake : (List.takeWhile (fun b => decide ¬ viewsGe a b) l).filter
        (fun r => viewsOf r == v) = [] := by
      rw [List.filter_eq_nil_iff]
      intro b hb
      have hpb := List.mem_takeWhile_imp hb
      have hgt : ¬ viewsGe a b := of_decide_eq_true hpb
      have hlt : viewsOf a < viewsOf b := lt_of_not_le hgt
      have hav : viewsOf a = v := by simpa using hv
      simp only [beq_iff_eq]
      omega
    rw [htake, List.nil_append]
    conv_rhs => rw [← hsplit]
    rw [List.filter_append, htake, List.nil_append]
  · rw [if_neg hv, if_neg hv]
    conv_rhs => rw [← hsplit]
    rw [List.filter_append]

/-- Stability of the modelled sort, stated through filters: the records
with any fixed view count appear in the sorted list exactly as they appear
in the input. -/
theorem filter_views_insertionSort (v : Int) (l : List VideoRecord) :
    (l.insertionSort viewsGe).filter (fun r => viewsOf r == v) =
      l.filter (fun r => viewsOf r == v) := by
  induction l with
  | nil => rfl
  | cons a l ih =>
    simp only [List.insertionSort]
    rw [filter_views_orderedInsert, List.filter_cons, ih]

/-- C4: `top5` holds `min 5 |processed|` records (shorter, never an error,
when fewer than 5 succeeded), all drawn from the success records, in
descending view order; every success record left out has at most the views
of every record kept; and for each view count the kept records are a
prefix of the success records with that count in input order — the sort is
stable, so ties are broken by first-seen original order. -/
theorem top5_spec (results : List VideoRecord) :
    (top5 results).length = min 5 (processedOf results).length
    ∧ (top5 results).Pairwise viewsGe
    ∧ (∀ r ∈ top5 results, r ∈ processedOf results)
    ∧ (∀ r ∈ processedOf results, r ∉ top5 results →
        ∀ t ∈ top5 results, viewsOf r ≤ viewsOf t)
    ∧ (∀ v : Int, (top5 results).filter (fun r => viewsOf r == v) <+:
        (processedOf results).filter (fun r => viewsOf r == v)) := by
  have hsort : ((processedOf results).insertionSort viewsGe).Pairwise viewsGe :=
    List.sorted_insertionSort viewsGe (processedOf results)
  have hperm : ((processedOf results).insertionSort viewsGe).Perm (processedOf results) :=
    List.perm_insertionSort viewsGe (processedOf results)
  refine ⟨?_, ?_, ?_, ?_, ?_⟩
  · unfold top5
    rw [List.length_take, List.length_insertionSort]
  · exact hsort.sublist (List.take_sublist _ _)
  · intro r hr
    exact hperm.subset (List.Sublist.subset (List.take_sublist _ _) hr)
  · intro r hr hnot t ht
    have hrL : r ∈ (processedOf results).insertionSort viewsGe := hperm.mem_iff.mpr hr
    have hsplitmem : r ∈ ((processedOf results).insertionSort viewsGe).take 5 ++
        ((processedOf results).insertionSort viewsGe).drop 5 := by
      rw [List.take_append_drop]
      exact hrL
    rcases List.mem_append.mp hsplitmem with h1 | h2
    · exact absurd h1 hnot
    · have hpw : (((processedOf results).insertionSort viewsGe).take 5 ++
          ((processedOf results).insertionSort viewsGe).drop 5).Pairwise viewsGe := by
        rw [List.take_append_drop]
        exact hsort
      exact (List.pairwise_append.mp hpw).2.2 t ht r h2
  · intro v
    have h1 : (top5 results).filter (fun r => viewsOf r == v) <+:
        ((processedOf results).insertionSort viewsGe).filter (fun r => viewsOf r == v) :=
      ⟨(((processedOf results).insertionSort viewsGe).drop 5).filter (fun r => viewsOf r == v),
        by rw [← List.filter_append, top5, List.take_append_drop]⟩
    rw [filter_views_insertionSort] at h1
    exact h1

/-- C8 witness: swapping a failure record past a success record changes no
count, total or average. -/
theorem aggregation_perm_invariant_witness :
    (processedOf [recFailed, recTen]).length = (processedOf [recTen, recFailed]).length
    ∧ (failedOf [recFailed, recTen]).length = (failedOf [recTen, recFailed]).length
    ∧ (zerosOf [recFailed, recTen]).length = (zerosOf [recTen, recFailed]).length
    ∧ total_views [recFailed, recTen] = total_views [recTen, recFailed]
    ∧ total_likes [recFailed, recTen] = total_likes [recTen, recFailed]
    ∧ total_comments [recFailed, recTen] = total_comments [recTen, recFailed]
    ∧ avg_views [recFailed, recTen] = avg_views [recTen, recFailed]
    ∧ avg_likes [recFailed, recTen] = avg_likes [recTen, recFailed]
    ∧ avg_comments [recFailed, recTen] = avg_comments [recTen, recFailed] :=
  aggregation_perm_invariant [recFailed, recTen] [recTen, recFailed]
    (List.Perm.swap recTen recFailed [])

/-! ## Rendering the top-5 lines (src/botik.py lines 92-95)

```
top_lines = "\n".join([
    f"{i+1}. [{r['title']}](https://youtube.com/shorts/{r['id']}) 👁️ {r['views']}"
    for i, r in enumerate(top5)
])
```

The title is interpolated verbatim; the only call to `escape_markdown` in
the whole handler is on the timestamp (line 110). -/

mutual

/-- Python `str()` as the f-string applies it to an interpolated value.
Only the string case is exercised by this program's records; the container
cases follow Python's repr shape (string-escaping inside repr elided). -/
def pyStr : Json → String
  | .str s => s
  | .num n => toString n
  | .bool b => if b then "True" else "False"
  | .null => "None"
  | .arr xs => "[" ++ pyReprList xs ++ "]"
  | .obj fs => "\x7b" ++ pyReprFields fs ++ "\x7d"

def pyRepr : Json → String
  | .str s => "'" ++ s ++ "'"
  | .num n => toString n
  | .bool b => if b then "True" else "False"
  | .null => "None"
  | .arr xs => "[" ++ pyReprList xs ++ "]"
  | .obj fs => "\x7b" ++ pyReprFields fs ++ "\x7d"

def pyReprList : List Json → String
  | [] => ""
  | [x] => pyRepr x
  | x :: xs => pyRepr x ++ ", " ++ pyReprList xs

def pyReprFields : List (String × Json) → String
  | [] => ""
  | [(k, v)] => "'" ++ k ++ "': " ++ pyRepr v
  | (k, v) :: fs => "'" ++ k ++ "': " ++ pyRepr v ++ ", " ++ pyReprFields fs

end

/-- Line 93: the f-string of one top-5 entry,
`f"{i+1}. [{r['title']}](https://youtube.com/shorts/{r['id']}) 👁️ {r['views']}"`.
On the records this template is applied to (members of `top5`, hence of the
fetcher's success path) `title` and `views` are always present. -/
def render_top_line (i : Nat) (r : VideoRecord) : String :=
  toString (i + 1) ++ ". [" ++ pyStr (r.title.getD .null) ++
    "](https://youtube.com/shorts/" ++ r.id ++ ") 👁️ " ++ toString (viewsOf r)

/-- Lines 92-95: `top_lines = "\n".join([...for i, r in enumerate(top5)])`. -/
def top_lines (results : List VideoRecord) : String :=
  String.intercalate "\n" ((top5 results).mapIdx (fun i r => render_top_line i r))

/-- A success record whose user-supplied title carries Markdown
metacharacters. -/
def evilTitled : VideoRecord :=
  { id := "dQw4w9WgXcQ", success := true,
    title := some (.str "*bold* [link](https://evil.example)"),
    date := some (.str "2024-01-01"), views := some 7, likes := some 1,
    comments := some 2 }

/-- C9 (a bug in the code): the spec requires every piece of text
interpolated into the Markdown message to be escaped, but line 93 splices
the title in verbatim (only the timestamp of line 110 is passed through
`escape_markdown`), so the metacharacters `*`, `[`, `]`, `(`, `)` of a
user-supplied title reach the rendered message unescaped and corrupt the
link markup around them. -/
theorem render_title_unescaped :
    render_top_line 0 evilTitled =
      "1. [*bold* [link](https://evil.example)](https://youtube.com/shorts/dQw4w9WgXcQ) 👁️ 7" :=
  rfl

end Botik
